import Mathlib

/-!
Verification development for the TeraBox downloader bot (src/bot.py).

The file shallowly embeds the engineering core of the bot:

* `downloadFile` models `download_file` (src/bot.py lines 136-232): the
  resilient single-URL downloader with resume via an HTTP Range header,
  a retry bound of `max_retries = 3` total attempts, exponential backoff
  `2 ^ attempt` seconds, a 90 percent size validation against the total
  size declared by the origin, and cleanup of the temp file when the
  retries are exhausted.  The network is modelled by an environment
  `env : Nat -> NetEvent` giving the outcome of each underlying HTTP
  attempt; the temp file at `tempPath filename` is modelled by an
  `Option Nat` (its size, `none` when absent).  The result records the
  full trace: one `AttemptRec` per underlying attempt, the sleeps
  performed between attempts, and the semaphore acquire/release events.
* `escalate` models the candidate-URL escalation loop of `process_file`
  (lines 323-354): proxied primary, direct fallback, re-resolution of the
  share link, then the refreshed proxied and direct URLs.
* `processFile` models `process_file` (lines 283-393): the size/extension
  validation gate, the `async with sem` block around the escalation, the
  user-facing messages, and the unconditional `finally` cleanup.
* `broadcastVideo` models `broadcast_video` (lines 235-263): feature-flag
  gates, the dedup lookup in the `broadcasted` collection keyed by the
  video name, the per-destination send loop whose per-destination failures
  are caught and skipped, ledger inserts on per-destination success only,
  and the boolean return value.

Machine integers do not overflow in the relevant paths, so sizes are
`Nat`; the python float `size_mb` is modelled as a rational, and the
float comparison `final_size < total_size * 0.9` as the exact integer
comparison `10 * final_size < 9 * total_size`.
-/

namespace TeraboxBot

/-- Python `or` on two optional strings: `None` and the empty string are
falsy, as in `link.get("download_url") or link.get("original_url")`. -/
def pyOrStr : Option String → Option String → Option String
  | some s, b => if s = "" then b else some s
  | none, b => b

/-- The scratch directory, `tempfile.gettempdir()`. -/
def tempDir : String := "/tmp"

/-- `os.path.join(tempfile.gettempdir(), filename)` (line 141): the local
target path depends on the filename only. -/
def tempPath (filename : String) : String := tempDir ++ "/" ++ filename

/-- Outcome of one underlying HTTP attempt, chosen by the environment. -/
inductive NetEvent where
  /-- A response status outside 200/206 (line 156), or any exception that
  is not a payload/content-length error: the generic handler at line 225
  removes the temp file and retries. -/
  | genericErr
  /-- The stream raises `ClientPayloadError`/`ContentLengthError` after
  `delivered` bytes were appended; the response declared `contentLength`
  remaining bytes.  Handled at line 208: the partial file is retained. -/
  | truncate (contentLength delivered : Nat)
  /-- The stream ends normally after `delivered` bytes; the response
  declared `contentLength` remaining bytes.  The size validation at
  line 195 then accepts or raises `ClientPayloadError`. -/
  | complete (contentLength delivered : Nat)
  deriving Repr, DecidableEq

/-- What one underlying attempt recorded before contacting the network:
the URL it was given, the state of the temp file, and the derived resume
header and file mode (lines 146-151 and 161). -/
structure AttemptRec where
  url : Option String
  existing : Option Nat
  rangeStart : Nat
  hasRange : Bool
  appendMode : Bool
  deriving Repr, DecidableEq

/-- The resume bookkeeping of lines 146-151: a Range header is sent iff
the temp file exists, starting at its current size; the file is opened in
append mode iff `existing_size` is nonzero (python truthiness). -/
def mkAttemptRec (url : Option String) (fs : Option Nat) : AttemptRec :=
  { url := url, existing := fs, rangeStart := fs.getD 0,
    hasRange := fs.isSome, appendMode := fs.getD 0 != 0 }

/-- Trace and outcome of one `download_file` invocation (all retries). -/
structure DLResult where
  success : Bool
  retPath : Option String
  fileSize : Option Nat
  acceptedTotal : Option Nat
  targetPath : String
  attempts : List AttemptRec
  sleeps : List Nat
  semAcquires : Nat
  semReleases : Nat
  deriving Repr, DecidableEq

/-- Classified outcome of the body of one attempt. -/
inductive FetchStep where
  /-- The attempt failed; `fsRetry` is the temp file state handed to the
  retry (the generic handler deletes it, the payload handler keeps it). -/
  | fail (fsRetry : Option Nat)
  /-- The stream completed and the size validation passed. -/
  | accept (newSize total : Nat)
  deriving Repr, DecidableEq

/-- One attempt body given the existing file size and the network event:
lines 155-196 of `download_file`.  `total` is
`int(resp.headers.get("Content-Length", 0)) + existing_size` (line 159)
and the check `final_size < total_size * 0.9` is taken exactly. -/
def attemptStep (existing : Nat) : NetEvent → FetchStep
  | NetEvent.genericErr => FetchStep.fail none
  | NetEvent.truncate _ d => FetchStep.fail (some (existing + d))
  | NetEvent.complete cl d =>
    let newSize := existing + d
    let total := cl + existing
    if total ≠ 0 ∧ 10 * newSize < 9 * total then FetchStep.fail (some newSize)
    else FetchStep.accept newSize total

/-- The event seen by attempt number `attempt`: fetching a `None` URL
(`session.get(None, ...)`) raises before any byte arrives, which the
generic handler treats like any unexpected error. -/
def eventAt (url : Option String) (env : Nat → NetEvent) (attempt : Nat) : NetEvent :=
  match url with
  | none => NetEvent.genericErr
  | some _ => env attempt

/-- The retry recursion of `download_file`: `attempt` is the current
attempt index, `remaining` the number of retries still allowed (the code
retries while `attempt < max_retries - 1`, so `remaining` starts at
`max_retries - 1` and `attempt + remaining` is invariant).  Each attempt
acquires and releases the global semaphore once (line 153), sleeps
`2 ^ attempt` seconds before a retry (lines 143 and 212/230), and on the
final failure deletes the temp file and returns `(False, None)`. -/
def downloadFileAux (dl_url : Option String) (filename : String) (env : Nat → NetEvent) :
    Nat → Nat → Option Nat → DLResult
  | attempt, remaining, fs =>
    match attemptStep (fs.getD 0) (eventAt dl_url env attempt) with
    | FetchStep.accept newSize total =>
      { success := true, retPath := some (tempPath filename),
        fileSize := some newSize, acceptedTotal := some total,
        targetPath := tempPath filename, attempts := [mkAttemptRec dl_url fs],
        sleeps := [], semAcquires := 1, semReleases := 1 }
    | FetchStep.fail fsRetry =>
      match remaining with
      | remN + 1 =>
        let rest := downloadFileAux dl_url filename env (attempt + 1) remN fsRetry
        { rest with attempts := mkAttemptRec dl_url fs :: rest.attempts,
                    sleeps := 2 ^ attempt :: rest.sleeps,
                    semAcquires := rest.semAcquires + 1,
                    semReleases := rest.semReleases + 1 }
      | 0 =>
        { success := false, retPath := none, fileSize := none,
          acceptedTotal := none, targetPath := tempPath filename,
          attempts := [mkAttemptRec dl_url fs], sleeps := [],
          semAcquires := 1, semReleases := 1 }

/-- `max_retries` default of `download_file` (line 136). -/
def max_retries : Nat := 3

/-- One `download_file(dl_url, filename, ...)` invocation, starting at
attempt 0 with the temp file in state `fs`. -/
def downloadFile (dl_url : Option String) (filename : String) (env : Nat → NetEvent)
    (fs : Option Nat) : DLResult :=
  downloadFileAux dl_url filename env 0 (max_retries - 1) fs

/-- One entry of the `links` array returned by the resolver API: the
fields of `link` that `process_file` reads. -/
structure LinkInfo where
  name : String
  size_mb : ℚ
  download_url : Option String
  original_url : Option String
  deriving Repr, DecidableEq

/-- The four escalation stages of `process_file` (lines 323-348), named
by the log labels of the code. -/
inductive StageLabel where
  | proxiedPrimary
  | directFallback
  | newProxied
  | newDirect
  deriving Repr, DecidableEq

/-- One executed escalation stage: its label, the URL handed to
`download_file`, and the full result of that invocation. -/
structure StageRec where
  label : StageLabel
  url : Option String
  result : DLResult
  deriving Repr, DecidableEq

/-- Trace and outcome of the escalation loop. -/
structure EscResult where
  stages : List StageRec
  refreshed : Bool
  success : Bool
  filePath : Option String
  fs : Option Nat
  deriving Repr, DecidableEq

/-- The `for attempt in range(4)` escalation loop of `process_file`
(lines 323-354), unrolled: stage 0 fetches
`link.get("download_url") or link.get("original_url")`, stage 1 fetches
`link.get("original_url")`, stage 2 re-resolves and fetches the refreshed
proxied URL of the entry whose name matches, stage 3 fetches the
refreshed direct URL.  The loop breaks at the first success, and breaks
out entirely when the re-resolution fails or no refreshed entry matches
the name.  `refresh` models the `get_links` answer (`none` when the call
fails or the payload has no `links` key); `env s` is the per-attempt
network environment of stage `s`.  The temp file state is threaded from
stage to stage. -/
def escalate (link : LinkInfo) (refresh : Option (List LinkInfo))
    (env : Nat → Nat → NetEvent) (fs0 : Option Nat) : EscResult :=
  let u0 := pyOrStr link.download_url link.original_url
  let r0 := downloadFile u0 link.name (env 0) fs0
  let s0 : StageRec := ⟨StageLabel.proxiedPrimary, u0, r0⟩
  if r0.success then
    { stages := [s0], refreshed := false, success := true,
      filePath := r0.retPath, fs := r0.fileSize }
  else
    let u1 := link.original_url
    let r1 := downloadFile u1 link.name (env 1) r0.fileSize
    let s1 : StageRec := ⟨StageLabel.directFallback, u1, r1⟩
    if r1.success then
      { stages := [s0, s1], refreshed := false, success := true,
        filePath := r1.retPath, fs := r1.fileSize }
    else
      match refresh with
      | none =>
        { stages := [s0, s1], refreshed := true, success := false,
          filePath := r1.retPath, fs := r1.fileSize }
      | some links =>
        match links.find? (fun l => l.name == link.name) with
        | none =>
          { stages := [s0, s1], refreshed := true, success := false,
            filePath := r1.retPath, fs := r1.fileSize }
        | some newLink =>
          let u2 := pyOrStr newLink.download_url newLink.original_url
          let r2 := downloadFile u2 link.name (env 2) r1.fileSize
          let s2 : StageRec := ⟨StageLabel.newProxied, u2, r2⟩
          if r2.success then
            { stages := [s0, s1, s2], refreshed := true, success := true,
              filePath := r2.retPath, fs := r2.fileSize }
          else
            let u3 := newLink.original_url
            let r3 := downloadFile u3 link.name (env 3) r2.fileSize
            let s3 : StageRec := ⟨StageLabel.newDirect, u3, r3⟩
            { stages := [s0, s1, s2, s3], refreshed := true, success := r3.success,
              filePath := r3.retPath, fs := r3.fileSize }

/-- Number of `download_file` invocations performed by an escalation. -/
def EscResult.fetchCount (e : EscResult) : Nat := e.stages.length

/-- Total number of underlying HTTP attempts across all stages. -/
def EscResult.attemptCount (e : EscResult) : Nat :=
  (e.stages.map (fun s => s.result.attempts.length)).sum

/-- Semaphore acquisitions performed inside the stage downloads. -/
def EscResult.acqCount (e : EscResult) : Nat :=
  (e.stages.map (fun s => s.result.semAcquires)).sum

/-- Semaphore releases performed inside the stage downloads. -/
def EscResult.relCount (e : EscResult) : Nat :=
  (e.stages.map (fun s => s.result.semReleases)).sum

/-- The `source_type` argument of `process_file`. -/
inductive SourceType where
  | user
  | admin
  | channel
  deriving Repr, DecidableEq

/-- `source_type == "channel"`. -/
def SourceType.isChannel : SourceType → Bool
  | SourceType.channel => true
  | _ => false

/-- The user-visible messages `process_file` can emit. -/
inductive Msg where
  /-- line 302: file too large, max 2 GB -/
  | sizeReject
  /-- line 310: skipped non-video file -/
  | skipNonVideo
  /-- line 316: found, starting download -/
  | found
  /-- line 359: failed to download after all attempts -/
  | dlFailed
  /-- line 385: error processing (the orchestrator-boundary handler) -/
  | procError
  deriving Repr, DecidableEq

/-- The video extension allow-list of line 308. -/
def VIDEO_EXTS : List String := [".mp4", ".mkv", ".avi", ".mov", ".webm"]

/-- `name.lower().endswith(('.mp4', '.mkv', '.avi', '.mov', '.webm'))`,
computed over the character list (python str.lower agrees with the
per-character ASCII lowering on the names this check distinguishes, and
the extensions themselves are ASCII). -/
def isVideoName (name : String) : Bool :=
  VIDEO_EXTS.any (fun e => e.data.isSuffixOf (name.data.map Char.toLower))

/-- Trace and outcome of one `process_file` invocation. -/
structure ProcResult where
  messages : List Msg
  validated : Bool
  fetchInvocations : Nat
  underlyingAttempts : Nat
  semAcquires : Nat
  semReleases : Nat
  refreshed : Bool
  success : Bool
  sentToUser : Bool
  finalFs : Option Nat
  deriving Repr, DecidableEq

/-- `process_file` (lines 283-393).  The validation block (size ceiling,
then extension allow-list) runs only when a status message exists and the
source is not a channel (line 299).  Past validation the whole escalation
runs inside `async with sem` (line 321), adding one semaphore
acquire/release pair around the per-attempt pairs taken inside
`download_file`.  `sendExc` injects an unexpected exception into the
post-download send/broadcast phase, caught by the `except` at line 382;
the `finally` at line 390 unlinks the artifact whenever `file_path` is
set, on every exit path of the block.
The code computes `size_gb = size_mb / 1024` (line 293) and rejects when
`size_gb > 2` (line 300); since 1024 is a positive constant this is the
comparison `2048 < size_mb`, the form used here so that the kernel can
evaluate it without rational normalization (`size_gate_iff` below proves
the two forms equivalent). -/
def processFile (link : LinkInfo) (hasStatus : Bool) (sourceType : SourceType)
    (refresh : Option (List LinkInfo)) (env : Nat → Nat → NetEvent)
    (channelBroadcastEnabled : Bool) (sendExc : Bool) (fs0 : Option Nat) : ProcResult :=
  let validating := hasStatus && !sourceType.isChannel
  let reportCond := hasStatus || !sourceType.isChannel || channelBroadcastEnabled
  if validating = true ∧ (2048 : ℚ) < link.size_mb then
    { messages := [Msg.sizeReject], validated := false, fetchInvocations := 0,
      underlyingAttempts := 0, semAcquires := 0, semReleases := 0,
      refreshed := false, success := false, sentToUser := false, finalFs := fs0 }
  else if validating = true ∧ isVideoName link.name = false then
    { messages := [Msg.skipNonVideo], validated := false, fetchInvocations := 0,
      underlyingAttempts := 0, semAcquires := 0, semReleases := 0,
      refreshed := false, success := false, sentToUser := false, finalFs := fs0 }
  else
    let msgs0 := if validating = true then [Msg.found] else []
    let esc := escalate link refresh env fs0
    if esc.filePath.isSome then
      { messages := msgs0 ++ (if sendExc = true ∧ reportCond = true then [Msg.procError] else []),
        validated := true, fetchInvocations := esc.fetchCount,
        underlyingAttempts := esc.attemptCount,
        semAcquires := 1 + esc.acqCount, semReleases := 1 + esc.relCount,
        refreshed := esc.refreshed, success := true,
        sentToUser := !sourceType.isChannel, finalFs := none }
    else
      { messages := msgs0 ++ (if reportCond = true then [Msg.dlFailed] else []),
        validated := true, fetchInvocations := esc.fetchCount,
        underlyingAttempts := esc.attemptCount,
        semAcquires := 1 + esc.acqCount, semReleases := 1 + esc.relCount,
        refreshed := esc.refreshed, success := false,
        sentToUser := false, finalFs := esc.fs }

/-- Fields of the global config document read by `broadcast_video`. -/
structure BotConfig where
  admin_broadcast_enabled : Bool
  channel_broadcast_enabled : Bool
  broadcast_chats : List Int
  deriving Repr, DecidableEq

/-- One document of the `broadcasted` collection: name and chat id (the
timestamp plays no role in the control flow and is omitted). -/
structure LedgerEntry where
  name : String
  chat_id : Int
  deriving Repr, DecidableEq

/-- The `broadcast_type` argument of `broadcast_video`. -/
inductive BroadcastType where
  | admin
  | channel
  deriving Repr, DecidableEq

/-- Trace and outcome of one `broadcast_video` invocation. -/
structure BroadcastResult where
  ret : Bool
  ledger : List LedgerEntry
  sendsAttempted : List Int
  successCount : Nat
  deriving Repr, DecidableEq

/-- `broadcast_col.find_one(\x7b"name": video_name\x7d) is not None`. -/
def ledgerHas (ledger : List LedgerEntry) (name : String) : Bool :=
  ledger.any (fun e => e.name == name)

/-- The send loop of `broadcast_video` (lines 251-259): every chat is
attempted (a per-chat exception is caught and the loop continues); on a
successful send a ledger document for that chat is inserted and the
counter incremented.  Returns (chats attempted, ledger after, successes). -/
def broadcastLoop (video_name : String) (sendOk : Int → Bool) :
    List Int → List LedgerEntry → List Int × List LedgerEntry × Nat
  | [], led => ([], led, 0)
  | c :: cs, led =>
    if sendOk c then
      let r := broadcastLoop video_name sendOk cs (led ++ [⟨video_name, c⟩])
      (c :: r.1, r.2.1, r.2.2 + 1)
    else
      let r := broadcastLoop video_name sendOk cs led
      (c :: r.1, r.2.1, r.2.2)

/-- `broadcast_video` (lines 235-263): feature-flag gate per broadcast
type, dedup lookup keyed by the video name, empty-destination guard, the
send loop, and the boolean return `broadcast_count > 0`.  `sendOk` tells
which destination sends succeed. -/
def broadcastVideo (cfg : BotConfig) (video_name : String) (btype : BroadcastType)
    (sendOk : Int → Bool) (ledger : List LedgerEntry) : BroadcastResult :=
  if btype = BroadcastType.admin ∧ cfg.admin_broadcast_enabled = false then
    { ret := false, ledger := ledger, sendsAttempted := [], successCount := 0 }
  else if btype = BroadcastType.channel ∧ cfg.channel_broadcast_enabled = false then
    { ret := false, ledger := ledger, sendsAttempted := [], successCount := 0 }
  else if ledgerHas ledger video_name then
    { ret := false, ledger := ledger, sendsAttempted := [], successCount := 0 }
  else if cfg.broadcast_chats = [] then
    { ret := false, ledger := ledger, sendsAttempted := [], successCount := 0 }
  else
    let r := broadcastLoop video_name sendOk cfg.broadcast_chats ledger
    { ret := decide (0 < r.2.2), ledger := r.2.1,
      sendsAttempted := r.1, successCount := r.2.2 }

/-! ### Lemmas about the retry recursion of `download_file` -/

/-- Unfolding step: an attempt whose body accepts ends the recursion. -/
theorem dl_step_accept (u : Option String) (fn : String) (env : Nat → NetEvent)
    (a rem : Nat) (fs : Option Nat) (ns t : Nat)
    (h : attemptStep (fs.getD 0) (eventAt u env a) = FetchStep.accept ns t) :
    downloadFileAux u fn env a rem fs =
      { success := true, retPath := some (tempPath fn), fileSize := some ns,
        acceptedTotal := some t, targetPath := tempPath fn,
        attempts := [mkAttemptRec u fs], sleeps := [],
        semAcquires := 1, semReleases := 1 } := by
  conv_lhs => rw [downloadFileAux]
  simp [h]

/-- Unfolding step: a failed attempt with retries left sleeps
`2 ^ attempt` seconds and recurses on the retry file state. -/
theorem dl_step_fail (u : Option String) (fn : String) (env : Nat → NetEvent)
    (a rem0 rem : Nat) (fs fsR : Option Nat) (hrem : rem0 = rem + 1)
    (h : attemptStep (fs.getD 0) (eventAt u env a) = FetchStep.fail fsR) :
    downloadFileAux u fn env a rem0 fs =
      { downloadFileAux u fn env (a + 1) rem fsR with
        attempts := mkAttemptRec u fs :: (downloadFileAux u fn env (a + 1) rem fsR).attempts,
        sleeps := 2 ^ a :: (downloadFileAux u fn env (a + 1) rem fsR).sleeps,
        semAcquires := (downloadFileAux u fn env (a + 1) rem fsR).semAcquires + 1,
        semReleases := (downloadFileAux u fn env (a + 1) rem fsR).semReleases + 1 } := by
  subst hrem
  conv_lhs => rw [downloadFileAux]
  simp [h]

/-- Unfolding step: a failed attempt with no retries left deletes the
temp file and reports failure. -/
theorem dl_step_fail_last (u : Option String) (fn : String) (env : Nat → NetEvent)
    (a rem0 : Nat) (fs fsR : Option Nat) (hrem : rem0 = 0)
    (h : attemptStep (fs.getD 0) (eventAt u env a) = FetchStep.fail fsR) :
    downloadFileAux u fn env a rem0 fs =
      { success := false, retPath := none, fileSize := none,
        acceptedTotal := none, targetPath := tempPath fn,
        attempts := [mkAttemptRec u fs], sleeps := [],
        semAcquires := 1, semReleases := 1 } := by
  subst hrem
  conv_lhs => rw [downloadFileAux]
  simp [h]

/-- The first recorded attempt reads the initial temp file state. -/
theorem dlAux_head (u : Option String) (fn : String) (env : Nat → NetEvent)
    (a rem : Nat) (fs : Option Nat) :
    (downloadFileAux u fn env a rem fs).attempts.head? = some (mkAttemptRec u fs) := by
  cases h : attemptStep (fs.getD 0) (eventAt u env a) with
  | accept ns t => rw [dl_step_accept u fn env a rem fs ns t h]; simp
  | fail fsR =>
    cases rem with
    | zero => rw [dl_step_fail_last u fn env a 0 fs fsR rfl h]; simp
    | succ r => rw [dl_step_fail u fn env a (r + 1) r fs fsR rfl h]; simp

/-- The attempt list is never empty. -/
theorem dlAux_attempts_pos (u : Option String) (fn : String) (env : Nat → NetEvent)
    (a rem : Nat) (fs : Option Nat) :
    0 < (downloadFileAux u fn env a rem fs).attempts.length := by
  cases hl : (downloadFileAux u fn env a rem fs).attempts with
  | nil => have h := dlAux_head u fn env a rem fs; rw [hl] at h; simp at h
  | cons x xs => simp

/-- At most `remaining + 1` underlying attempts happen. -/
theorem dlAux_len_le (u : Option String) (fn : String) (env : Nat → NetEvent) :
    ∀ rem a fs, (downloadFileAux u fn env a rem fs).attempts.length ≤ rem + 1 := by
  intro rem
  induction rem with
  | zero =>
    intro a fs
    cases h : attemptStep (fs.getD 0) (eventAt u env a) with
    | accept ns t => rw [dl_step_accept u fn env a 0 fs ns t h]; simp
    | fail fsR => rw [dl_step_fail_last u fn env a 0 fs fsR rfl h]; simp
  | succ r ih =>
    intro a fs
    cases h : attemptStep (fs.getD 0) (eventAt u env a) with
    | accept ns t => rw [dl_step_accept u fn env a (r + 1) fs ns t h]; simp

    | fail fsR =>
      rw [dl_step_fail u fn env a (r + 1) r fs fsR rfl h]
      simpa using Nat.succ_le_succ (ih (a + 1) fsR)

/-- A failed invocation used all `remaining + 1` attempts: the code
retries every failure until the bound is reached. -/
theorem dlAux_fail_len (u : Option String) (fn : String) (env : Nat → NetEvent) :
    ∀ rem a fs, (downloadFileAux u fn env a rem fs).success = false →
      (downloadFileAux u fn env a rem fs).attempts.length = rem + 1 := by
  intro rem
  induction rem with
  | zero =>
    intro a fs hf
    cases h : attemptStep (fs.getD 0) (eventAt u env a) with
    | accept ns t => rw [dl_step_accept u fn env a 0 fs ns t h] at hf; simp at hf
    | fail fsR => rw [dl_step_fail_last u fn env a 0 fs fsR rfl h]; simp
  | succ r ih =>
    intro a fs hf
    cases h : attemptStep (fs.getD 0) (eventAt u env a) with
    | accept ns t => rw [dl_step_accept u fn env a (r + 1) fs ns t h] at hf; simp at hf
    | fail fsR =>
      rw [dl_step_fail u fn env a (r + 1) r fs fsR rfl h] at hf ⊢
      simpa using ih (a + 1) fsR (by simpa using hf)

/-- Each underlying attempt acquires the semaphore exactly once. -/
theorem dlAux_acq (u : Option String) (fn : String) (env : Nat → NetEvent) :
    ∀ rem a fs, (downloadFileAux u fn env a rem fs).semAcquires =
      (downloadFileAux u fn env a rem fs).attempts.length := by
  intro rem
  induction rem with
  | zero =>
    intro a fs
    cases h : attemptStep (fs.getD 0) (eventAt u env a) with
    | accept ns t => rw [dl_step_accept u fn env a 0 fs ns t h]; rfl
    | fail fsR => rw [dl_step_fail_last u fn env a 0 fs fsR rfl h]; rfl
  | succ r ih =>
    intro a fs
    cases h : attemptStep (fs.getD 0) (eventAt u env a) with
    | accept ns t => rw [dl_step_accept u fn env a (r + 1) fs ns t h]; rfl
    | fail fsR =>
      rw [dl_step_fail u fn env a (r + 1) r fs fsR rfl h]
      simpa using ih (a + 1) fsR

/-- Each underlying attempt releases the semaphore exactly once. -/
theorem dlAux_rel (u : Option String) (fn : String) (env : Nat → NetEvent) :
    ∀ rem a fs, (downloadFileAux u fn env a rem fs).semReleases =
      (downloadFileAux u fn env a rem fs).attempts.length := by
  intro rem
  induction rem with
  | zero =>
    intro a fs
    cases h : attemptStep (fs.getD 0) (eventAt u env a) with
    | accept ns t => rw [dl_step_accept u fn env a 0 fs ns t h]; rfl
    | fail fsR => rw [dl_step_fail_last u fn env a 0 fs fsR rfl h]; rfl
  | succ r ih =>
    intro a fs
    cases h : attemptStep (fs.getD 0) (eventAt u env a) with
    | accept ns t => rw [dl_step_accept u fn env a (r + 1) fs ns t h]; rfl
    | fail fsR =>
      rw [dl_step_fail u fn env a (r + 1) r fs fsR rfl h]
      simpa using ih (a + 1) fsR

/-- The sleeps between attempts are the exponential backoffs
`2 ^ attempt` of every attempt except the last. -/
theorem dlAux_sleeps (u : Option String) (fn : String) (env : Nat → NetEvent) :
    ∀ rem a fs, (downloadFileAux u fn env a rem fs).sleeps =
      (List.range ((downloadFileAux u fn env a rem fs).attempts.length - 1)).map
        (fun k => 2 ^ (a + k)) := by
  intro rem
  induction rem with
  | zero =>
    intro a fs
    cases h : attemptStep (fs.getD 0) (eventAt u env a) with
    | accept ns t => rw [dl_step_accept u fn env a 0 fs ns t h]; rfl
    | fail fsR => rw [dl_step_fail_last u fn env a 0 fs fsR rfl h]; rfl
  | succ r ih =>
    intro a fs
    cases h : attemptStep (fs.getD 0) (eventAt u env a) with
    | accept ns t => rw [dl_step_accept u fn env a (r + 1) fs ns t h]; rfl
    | fail fsR =>
      rw [dl_step_fail u fn env a (r + 1) r fs fsR rfl h]
      obtain ⟨m, hm⟩ : ∃ m, (downloadFileAux u fn env (a + 1) r fsR).attempts.length = m + 1 :=
        ⟨(downloadFileAux u fn env (a + 1) r fsR).attempts.length - 1,
          (Nat.succ_pred_eq_of_pos (dlAux_attempts_pos u fn env (a + 1) r fsR)).symm⟩
      have hih := ih (a + 1) fsR
      rw [hm] at hih
      simp only [Nat.add_sub_cancel] at hih
      show 2 ^ a :: (downloadFileAux u fn env (a + 1) r fsR).sleeps =
        (List.range ((mkAttemptRec u fs ::
          (downloadFileAux u fn env (a + 1) r fsR).attempts).length - 1)).map
          (fun k => 2 ^ (a + k))
      rw [hih, List.length_cons, hm]
      simp only [Nat.add_sub_cancel, List.range_succ_eq_map, List.map_cons, List.map_map]
      refine List.cons_eq_cons.mpr ⟨by simp, ?_⟩
      apply List.map_congr_left
      intro k hk
      simp only [Function.comp_apply]
      congr 1
      omega

/-- A failed invocation leaves no temp file and returns no path. -/
theorem dlAux_fail_state (u : Option String) (fn : String) (env : Nat → NetEvent) :
    ∀ rem a fs, (downloadFileAux u fn env a rem fs).success = false →
      (downloadFileAux u fn env a rem fs).fileSize = none ∧
        (downloadFileAux u fn env a rem fs).retPath = none := by
  intro rem
  induction rem with
  | zero =>
    intro a fs hf
    cases h : attemptStep (fs.getD 0) (eventAt u env a) with
    | accept ns t => rw [dl_step_accept u fn env a 0 fs ns t h] at hf; simp at hf
    | fail fsR => rw [dl_step_fail_last u fn env a 0 fs fsR rfl h]; exact ⟨rfl, rfl⟩
  | succ r ih =>
    intro a fs hf
    cases h : attemptStep (fs.getD 0) (eventAt u env a) with
    | accept ns t => rw [dl_step_accept u fn env a (r + 1) fs ns t h] at hf; simp at hf
    | fail fsR =>
      rw [dl_step_fail u fn env a (r + 1) r fs fsR rfl h] at hf ⊢
      exact ih (a + 1) fsR (by simpa using hf)

/-- An accepting attempt body passed the 90 percent size validation. -/
theorem attemptStep_accept_bound (e : Nat) (ev : NetEvent) (ns t : Nat)
    (h : attemptStep e ev = FetchStep.accept ns t) :
    t = 0 ∨ 9 * t ≤ 10 * ns := by
  cases ev with
  | genericErr => simp [attemptStep] at h
  | truncate cl d => simp [attemptStep] at h
  | complete cl d =>
    simp only [attemptStep] at h
    split at h
    · simp at h
    · rename_i hcond
      obtain ⟨h1, h2⟩ := FetchStep.accept.inj h
      subst h1; subst h2
      omega

/-- A successful invocation returns the target path and a file whose
size passed the validation against the declared total. -/
theorem dlAux_success_state (u : Option String) (fn : String) (env : Nat → NetEvent) :
    ∀ rem a fs, (downloadFileAux u fn env a rem fs).success = true →
      ∃ n t, (downloadFileAux u fn env a rem fs).fileSize = some n ∧
        (downloadFileAux u fn env a rem fs).retPath = some (tempPath fn) ∧
        (downloadFileAux u fn env a rem fs).acceptedTotal = some t ∧
        (t = 0 ∨ 9 * t ≤ 10 * n) := by
  intro rem
  induction rem with
  | zero =>
    intro a fs hs
    cases h : attemptStep (fs.getD 0) (eventAt u env a) with
    | accept ns t =>
      rw [dl_step_accept u fn env a 0 fs ns t h]
      exact ⟨ns, t, rfl, rfl, rfl, attemptStep_accept_bound _ _ _ _ h⟩
    | fail fsR => rw [dl_step_fail_last u fn env a 0 fs fsR rfl h] at hs; simp at hs
  | succ r ih =>
    intro a fs hs
    cases h : attemptStep (fs.getD 0) (eventAt u env a) with
    | accept ns t =>
      rw [dl_step_accept u fn env a (r + 1) fs ns t h]
      exact ⟨ns, t, rfl, rfl, rfl, attemptStep_accept_bound _ _ _ _ h⟩
    | fail fsR =>
      rw [dl_step_fail u fn env a (r + 1) r fs fsR rfl h] at hs ⊢
      exact ih (a + 1) fsR (by simpa using hs)

/-- Fetching an absent URL always fails. -/
theorem dlAux_none_url (fn : String) (env : Nat → NetEvent) :
    ∀ rem a fs, (downloadFileAux none fn env a rem fs).success = false := by
  intro rem
  induction rem with
  | zero =>
    intro a fs
    have h : attemptStep (fs.getD 0) (eventAt none env a) = FetchStep.fail none := by
      simp [eventAt, attemptStep]
    rw [dl_step_fail_last none fn env a 0 fs none rfl h]
  | succ r ih =>
    intro a fs
    have h : attemptStep (fs.getD 0) (eventAt none env a) = FetchStep.fail none := by
      simp [eventAt, attemptStep]
    rw [dl_step_fail none fn env a (r + 1) r fs none rfl h]
    simpa using ih (a + 1) none

/-- Every attempt of one invocation carries the URL it was called on. -/
theorem dlAux_urls (u : Option String) (fn : String) (env : Nat → NetEvent) :
    ∀ rem a fs, ((downloadFileAux u fn env a rem fs).attempts.all
      (fun rec => rec.url == u)) = true := by
  intro rem
  induction rem with
  | zero =>
    intro a fs
    cases h : attemptStep (fs.getD 0) (eventAt u env a) with
    | accept ns t => rw [dl_step_accept u fn env a 0 fs ns t h]; simp [mkAttemptRec]
    | fail fsR => rw [dl_step_fail_last u fn env a 0 fs fsR rfl h]; simp [mkAttemptRec]
  | succ r ih =>
    intro a fs
    cases h : attemptStep (fs.getD 0) (eventAt u env a) with
    | accept ns t => rw [dl_step_accept u fn env a (r + 1) fs ns t h]; simp [mkAttemptRec]
    | fail fsR =>
      rw [dl_step_fail u fn env a (r + 1) r fs fsR rfl h]
      simp only [List.all_cons, Bool.and_eq_true]
      exact ⟨by simp [mkAttemptRec], ih (a + 1) fsR⟩

/-- The target path is always the temp path of the filename. -/
theorem dlAux_target (u : Option String) (fn : String) (env : Nat → NetEvent) :
    ∀ rem a fs, (downloadFileAux u fn env a rem fs).targetPath = tempPath fn := by
  intro rem
  induction rem with
  | zero =>
    intro a fs
    cases h : attemptStep (fs.getD 0) (eventAt u env a) with
    | accept ns t => rw [dl_step_accept u fn env a 0 fs ns t h]
    | fail fsR => rw [dl_step_fail_last u fn env a 0 fs fsR rfl h]
  | succ r ih =>
    intro a fs
    cases h : attemptStep (fs.getD 0) (eventAt u env a) with
    | accept ns t => rw [dl_step_accept u fn env a (r + 1) fs ns t h]
    | fail fsR =>
      rw [dl_step_fail u fn env a (r + 1) r fs fsR rfl h]
      simpa using ih (a + 1) fsR

/-! ### Lemmas about `downloadFile` -/

/-- The first attempt of an invocation reads the initial temp file. -/
theorem dl_head (u : Option String) (fn : String) (env : Nat → NetEvent) (fs : Option Nat) :
    (downloadFile u fn env fs).attempts.head? = some (mkAttemptRec u fs) :=
  dlAux_head u fn env 0 (max_retries - 1) fs

/-- At most `max_retries = 3` underlying attempts happen. -/
theorem dl_len_le (u : Option String) (fn : String) (env : Nat → NetEvent) (fs : Option Nat) :
    (downloadFile u fn env fs).attempts.length ≤ 3 :=
  dlAux_len_le u fn env (max_retries - 1) 0 fs

/-- Failure is reported only once all 3 attempts have failed. -/
theorem dl_fail_len (u : Option String) (fn : String) (env : Nat → NetEvent) (fs : Option Nat)
    (h : (downloadFile u fn env fs).success = false) :
    (downloadFile u fn env fs).attempts.length = 3 :=
  dlAux_fail_len u fn env (max_retries - 1) 0 fs h

/-- The semaphore is acquired once per underlying attempt. -/
theorem dl_acq (u : Option String) (fn : String) (env : Nat → NetEvent) (fs : Option Nat) :
    (downloadFile u fn env fs).semAcquires = (downloadFile u fn env fs).attempts.length :=
  dlAux_acq u fn env (max_retries - 1) 0 fs

/-- The semaphore is released once per underlying attempt. -/
theorem dl_rel (u : Option String) (fn : String) (env : Nat → NetEvent) (fs : Option Nat) :
    (downloadFile u fn env fs).semReleases = (downloadFile u fn env fs).attempts.length :=
  dlAux_rel u fn env (max_retries - 1) 0 fs

/-- The sleeps of an invocation are `2 ^ k` seconds for each attempt
index `k` except the last attempt. -/
theorem dl_sleeps (u : Option String) (fn : String) (env : Nat → NetEvent) (fs : Option Nat) :
    (downloadFile u fn env fs).sleeps =
      (List.range ((downloadFile u fn env fs).attempts.length - 1)).map (fun k => 2 ^ k) := by
  have h := dlAux_sleeps u fn env (max_retries - 1) 0 fs
  simpa [downloadFile] using h

/-- A failed invocation leaves no temp file and returns no path. -/
theorem dl_fail_state (u : Option String) (fn : String) (env : Nat → NetEvent) (fs : Option Nat)
    (h : (downloadFile u fn env fs).success = false) :
    (downloadFile u fn env fs).fileSize = none ∧ (downloadFile u fn env fs).retPath = none :=
  dlAux_fail_state u fn env (max_retries - 1) 0 fs h

/-- A successful invocation returns the target path and a validated file. -/
theorem dl_success_state (u : Option String) (fn : String) (env : Nat → NetEvent) (fs : Option Nat)
    (h : (downloadFile u fn env fs).success = true) :
    ∃ n t, (downloadFile u fn env fs).fileSize = some n ∧
      (downloadFile u fn env fs).retPath = some (tempPath fn) ∧
      (downloadFile u fn env fs).acceptedTotal = some t ∧
      (t = 0 ∨ 9 * t ≤ 10 * n) :=
  dlAux_success_state u fn env (max_retries - 1) 0 fs h

/-- Fetching an absent URL always fails. -/
theorem dl_none_url (fn : String) (env : Nat → NetEvent) (fs : Option Nat) :
    (downloadFile none fn env fs).success = false :=
  dlAux_none_url fn env (max_retries - 1) 0 fs

/-- A successful invocation had a URL to fetch. -/
theorem dl_success_isSome (u : Option String) (fn : String) (env : Nat → NetEvent)
    (fs : Option Nat) (h : (downloadFile u fn env fs).success = true) : u.isSome = true := by
  cases u with
  | some s => rfl
  | none => rw [dl_none_url] at h; cases h

/-- Every attempt of one invocation carries the URL it was called on. -/
theorem dl_urls (u : Option String) (fn : String) (env : Nat → NetEvent) (fs : Option Nat) :
    ((downloadFile u fn env fs).attempts.all (fun rec => rec.url == u)) = true :=
  dlAux_urls u fn env (max_retries - 1) 0 fs

/-- The target path of an invocation is the temp path of the filename. -/
theorem dl_target (u : Option String) (fn : String) (env : Nat → NetEvent) (fs : Option Nat) :
    (downloadFile u fn env fs).targetPath = tempPath fn :=
  dlAux_target u fn env (max_retries - 1) 0 fs

/-- The size gate of `process_file`: `size_gb = size_mb / 1024` (line
293) exceeds 2 exactly when `size_mb` exceeds 2048, the form used in the
definition of `processFile`. -/
theorem size_gate_iff (s : ℚ) : (2048 : ℚ) < s ↔ 2 < s / 1024 := by
  rw [lt_div_iff₀ (by norm_num : (0 : ℚ) < 1024)]
  norm_num

/-! ### Lemmas about the escalation loop -/

theorem dl_fail_fileSize (u : Option String) (fn : String) (env : Nat → NetEvent)
    (fs : Option Nat) (h : (downloadFile u fn env fs).success = false) :
    (downloadFile u fn env fs).fileSize = none := (dl_fail_state u fn env fs h).1

theorem dl_fail_retPath (u : Option String) (fn : String) (env : Nat → NetEvent)
    (fs : Option Nat) (h : (downloadFile u fn env fs).success = false) :
    (downloadFile u fn env fs).retPath = none := (dl_fail_state u fn env fs h).2

theorem dl_success_retPath (u : Option String) (fn : String) (env : Nat → NetEvent)
    (fs : Option Nat) (h : (downloadFile u fn env fs).success = true) :
    (downloadFile u fn env fs).retPath = some (tempPath fn) := by
  obtain ⟨n, t, h1, h2, h3, h4⟩ := dl_success_state u fn env fs h
  exact h2

/-- The labels of the executed stages are always an initial segment of
the fixed stage order of the loop. -/
theorem escalate_labels (link : LinkInfo) (refresh : Option (List LinkInfo))
    (env : Nat → Nat → NetEvent) (fs0 : Option Nat) :
    (escalate link refresh env fs0).stages.map StageRec.label =
      [StageLabel.proxiedPrimary, StageLabel.directFallback, StageLabel.newProxied,
        StageLabel.newDirect].take (escalate link refresh env fs0).stages.length := by
  unfold escalate
  dsimp only
  split
  · simp
  · split
    · simp
    · split
      · simp
      · split
        · simp
        · split
          · simp
          · simp

/-- Every stage except possibly the last one failed: the loop breaks at
the first success. -/
theorem escalate_stop (link : LinkInfo) (refresh : Option (List LinkInfo))
    (env : Nat → Nat → NetEvent) (fs0 : Option Nat) :
    ((escalate link refresh env fs0).stages.dropLast.all (fun s => !s.result.success)) = true := by
  unfold escalate
  dsimp only
  split
  · simp
  · split
    · simp_all
    · split
      · simp_all
      · split
        · simp_all
        · split
          · simp_all
          · simp_all

theorem escalate_refresh_after (link : LinkInfo) (refresh : Option (List LinkInfo))
    (env : Nat → Nat → NetEvent) (fs0 : Option Nat) :
    (escalate link refresh env fs0).refreshed = true →
      ((escalate link refresh env fs0).stages.take 2).map (fun s => (s.label, s.result.success)) =
        [(StageLabel.proxiedPrimary, false), (StageLabel.directFallback, false)] := by
  unfold escalate
  dsimp only
  split
  · simp
  · split
    · simp
    · split
      · simp_all
      · split
        · simp_all
        · split
          · simp_all
          · simp_all

theorem escalate_last_success (link : LinkInfo) (refresh : Option (List LinkInfo))
    (env : Nat → Nat → NetEvent) (fs0 : Option Nat) :
    (escalate link refresh env fs0).success = true →
      (escalate link refresh env fs0).stages.getLast?.map (fun s => s.result.success) = some true := by
  unfold escalate
  dsimp only
  split
  · simp_all
  · split
    · simp_all
    · split
      · simp_all
      · split
        · simp_all
        · split
          · simp_all
          · simp_all

theorem escalate_absent_url (link : LinkInfo) (refresh : Option (List LinkInfo))
    (env : Nat → Nat → NetEvent) (fs0 : Option Nat) :
    ((escalate link refresh env fs0).stages.all (fun s => s.url.isSome || !s.result.success)) = true := by
  unfold escalate
  dsimp only
  split
  · next h0 => simp_all [dl_success_isSome _ _ _ _ h0]
  · split
    · next h1 => simp_all [dl_success_isSome _ _ _ _ h1]
    · split
      · simp_all
      · split
        · simp_all
        · split
          · next h2 => simp_all [dl_success_isSome _ _ _ _ h2]
          · next h2 =>
              rcases h3 : (downloadFile _ link.name (env 3) _).success with _ | _
              · simp_all
              · simp_all [dl_success_isSome _ _ _ _ h3]

theorem escalate_filePath (link : LinkInfo) (refresh : Option (List LinkInfo))
    (env : Nat → Nat → NetEvent) (fs0 : Option Nat) :
    (escalate link refresh env fs0).filePath.isSome = (escalate link refresh env fs0).success := by
  unfold escalate
  dsimp only
  split
  · next h0 => simp_all [dl_success_retPath _ _ _ _ h0]
  · split
    · next h1 => simp_all [dl_success_retPath _ _ _ _ h1]
    · split
      · simp_all [dl_fail_retPath]
      · split
        · simp_all [dl_fail_retPath]
        · split
          · next h2 => simp_all [dl_success_retPath _ _ _ _ h2]
          · next h2 =>
              rcases h3 : (downloadFile _ link.name (env 3) _).success with _ | _
              · simp_all [dl_fail_retPath]
              · simp_all [dl_success_retPath]

theorem escalate_fail_fs (link : LinkInfo) (refresh : Option (List LinkInfo))
    (env : Nat → Nat → NetEvent) (fs0 : Option Nat) :
    (escalate link refresh env fs0).success = false → (escalate link refresh env fs0).fs = none := by
  unfold escalate
  dsimp only
  split
  · simp_all
  · split
    · simp_all
    · split
      · simp_all [dl_fail_fileSize]
      · split
        · simp_all [dl_fail_fileSize]
        · split
          · simp_all
          · simp_all [dl_fail_fileSize]

theorem escalate_acq (link : LinkInfo) (refresh : Option (List LinkInfo))
    (env : Nat → Nat → NetEvent) (fs0 : Option Nat) :
    (escalate link refresh env fs0).acqCount = (escalate link refresh env fs0).attemptCount := by
  unfold escalate
  dsimp only
  split
  · simp [EscResult.acqCount, EscResult.attemptCount, dl_acq]
  · split
    · simp [EscResult.acqCount, EscResult.attemptCount, dl_acq]
    · split
      · simp [EscResult.acqCount, EscResult.attemptCount, dl_acq]
      · split
        · simp [EscResult.acqCount, EscResult.attemptCount, dl_acq]
        · split
          · simp [EscResult.acqCount, EscResult.attemptCount, dl_acq]
          · simp [EscResult.acqCount, EscResult.attemptCount, dl_acq]

theorem escalate_rel (link : LinkInfo) (refresh : Option (List LinkInfo))
    (env : Nat → Nat → NetEvent) (fs0 : Option Nat) :
    (escalate link refresh env fs0).relCount = (escalate link refresh env fs0).attemptCount := by
  unfold escalate
  dsimp only
  split
  · simp [EscResult.relCount, EscResult.attemptCount, dl_rel]
  · split
    · simp [EscResult.relCount, EscResult.attemptCount, dl_rel]
    · split
      · simp [EscResult.relCount, EscResult.attemptCount, dl_rel]
      · split
        · simp [EscResult.relCount, EscResult.attemptCount, dl_rel]
        · split
          · simp [EscResult.relCount, EscResult.attemptCount, dl_rel]
          · simp [EscResult.relCount, EscResult.attemptCount, dl_rel]

theorem escalate_clean_start (link : LinkInfo) (refresh : Option (List LinkInfo))
    (env : Nat → Nat → NetEvent) :
    ((escalate link refresh env none).stages.all (fun s => (s.result.attempts.head?).all
      (fun arec => arec.existing == none))) = true := by
  unfold escalate
  dsimp only
  split
  · simp_all [dl_head, mkAttemptRec]
  · split
    · simp_all [dl_head, mkAttemptRec, dl_fail_fileSize]
    · split
      · simp_all [dl_head, mkAttemptRec, dl_fail_fileSize]
      · split
        · simp_all [dl_head, mkAttemptRec, dl_fail_fileSize]
        · split
          · simp_all [dl_head, mkAttemptRec, dl_fail_fileSize]
          · simp_all [dl_head, mkAttemptRec, dl_fail_fileSize]


/-! ### Lemmas about `broadcast_video` -/

/-- The send loop attempts every chat, inserts one ledger entry per
successful send, and counts the successes. -/
theorem broadcastLoop_spec (name : String) (ok : Int → Bool) :
    ∀ (cs : List Int) (led : List LedgerEntry),
      broadcastLoop name ok cs led =
        (cs, led ++ (cs.filter ok).map (fun c => ⟨name, c⟩), (cs.filter ok).length) := by
  intro cs
  induction cs with
  | nil => intro led; simp [broadcastLoop]
  | cons c cs ih =>
    intro led
    by_cases hc : ok c = true
    · simp [broadcastLoop, hc, ih, List.filter_cons]
    · simp only [Bool.not_eq_true] at hc
      simp [broadcastLoop, hc, ih, List.filter_cons]

/-- If at least one destination send succeeded, the ledger afterwards
contains an entry keyed by the video name. -/
theorem broadcast_ledger_after (cfg : BotConfig) (name : String) (btype : BroadcastType)
    (ok : Int → Bool) (led : List LedgerEntry)
    (h : 1 ≤ (broadcastVideo cfg name btype ok led).successCount) :
    ledgerHas (broadcastVideo cfg name btype ok led).ledger name = true := by
  by_cases h1 : btype = BroadcastType.admin ∧ cfg.admin_broadcast_enabled = false
  · simp [broadcastVideo, h1] at h
  · by_cases h2 : btype = BroadcastType.channel ∧ cfg.channel_broadcast_enabled = false
    · simp [broadcastVideo, h1, h2] at h
    · by_cases h3 : ledgerHas led name = true
      · simp [broadcastVideo, h1, h2, h3] at h
      · by_cases h4 : cfg.broadcast_chats = []
        · simp [broadcastVideo, h1, h2, h3, h4] at h
        · simp only [broadcastVideo, h1, h2, h3, h4, if_false, broadcastLoop_spec] at h ⊢
          simp only [Bool.not_eq_true] at h3
          cases hf : cfg.broadcast_chats.filter ok with
          | nil => rw [hf] at h; simp at h
          | cons c cs =>
            simp [ledgerHas, List.any_append, hf]

/-- When the ledger already has an entry for the name, `broadcast_video`
performs no sends and leaves the ledger unchanged (whatever the flags,
which are checked first and also produce zero sends when disabled). -/
theorem broadcast_skip_when_present (cfg : BotConfig) (name : String) (btype : BroadcastType)
    (ok : Int → Bool) (led : List LedgerEntry) (h : ledgerHas led name = true) :
    broadcastVideo cfg name btype ok led =
      { ret := false, ledger := led, sendsAttempted := [], successCount := 0 } := by
  by_cases h1 : btype = BroadcastType.admin ∧ cfg.admin_broadcast_enabled = false
  · simp [broadcastVideo, h1]
  · by_cases h2 : btype = BroadcastType.channel ∧ cfg.channel_broadcast_enabled = false
    · simp [broadcastVideo, h1, h2]
    · simp [broadcastVideo, h1, h2, h]

/-! ### The claims -/

/-- Claim C1 (amended): for every file descriptor, the escalation tries
the stages in the fixed priority order (proxied primary with fallback to
the direct URL inside stage 0, then direct fallback, then the refreshed
proxied and direct URLs); every stage before the last one failed, so the
loop stops at the first successful fetch; the re-resolution of the share
link happens only after both direct stages were attempted and failed; on
success the last executed stage is the successful one; and a stage whose
URL is absent is still attempted with a null URL and always counts as a
failure (it is not skipped). -/
theorem C1_escalation_order (link : LinkInfo) (refresh : Option (List LinkInfo))
    (env : Nat → Nat → NetEvent) (fs0 : Option Nat) :
    let r := escalate link refresh env fs0
    r.stages.map StageRec.label =
        [StageLabel.proxiedPrimary, StageLabel.directFallback, StageLabel.newProxied,
          StageLabel.newDirect].take r.stages.length
    ∧ (r.stages.dropLast.all (fun s => !s.result.success)) = true
    ∧ (r.refreshed = true → (r.stages.take 2).map (fun s => (s.label, s.result.success)) =
        [(StageLabel.proxiedPrimary, false), (StageLabel.directFallback, false)])
    ∧ (r.success = true → r.stages.getLast?.map (fun s => s.result.success) = some true)
    ∧ (r.stages.all (fun s => s.url.isSome || !s.result.success)) = true :=
  ⟨escalate_labels link refresh env fs0, escalate_stop link refresh env fs0,
    escalate_refresh_after link refresh env fs0, escalate_last_success link refresh env fs0,
    escalate_absent_url link refresh env fs0⟩

/-- Claim C1 counterexample: on a descriptor with no candidate URLs the
code does not skip the direct stages; both are attempted with an absent
URL, each counts as a failure of 3 underlying attempts, and the
re-resolution is still reached. -/
theorem C1_absent_url_not_skipped_cex :
    let r := escalate ⟨"a.mp4", 1, none, none⟩ none (fun _ _ => NetEvent.genericErr) none
    r.stages.map (fun s => (s.label, s.url, s.result.success, s.result.attempts.length))
      = [(StageLabel.proxiedPrimary, none, false, 3), (StageLabel.directFallback, none, false, 3)]
    ∧ r.refreshed = true := by decide

/-- Claim C2 (amended): the global semaphore is released exactly as often
as it is acquired on every path, and one `process_file` run that reaches
the escalation acquires it `1 + number of underlying HTTP attempts`
times: once around the whole escalation (line 321) plus once inside
every `download_file` attempt (line 153) - not exactly once per
whole-file download. -/
theorem C2_slot_accounting (link : LinkInfo) (hasStatus : Bool) (st : SourceType)
    (refresh : Option (List LinkInfo)) (env : Nat → Nat → NetEvent)
    (chanFlag sendExc : Bool) (fs0 : Option Nat) :
    (processFile link hasStatus st refresh env chanFlag sendExc fs0).semReleases =
      (processFile link hasStatus st refresh env chanFlag sendExc fs0).semAcquires
    ∧ (processFile link hasStatus st refresh env chanFlag sendExc fs0).semAcquires =
        (if (processFile link hasStatus st refresh env chanFlag sendExc fs0).validated = true
          then 1 + (processFile link hasStatus st refresh env chanFlag sendExc fs0).underlyingAttempts
          else 0) := by
  unfold processFile
  dsimp only
  split
  · simp
  · split
    · simp
    · split
      · simp [escalate_acq, escalate_rel]
      · simp [escalate_acq, escalate_rel]

/-- Claim C2 counterexample: a minimal whole-file download (validation
passes, the first stage succeeds on its first attempt) acquires the
semaphore twice, not exactly once - once in `process_file` and once
inside `download_file`. -/
theorem C2_single_acquire_cex :
    let r := processFile ⟨"v.mp4", 10, some "u", none⟩ true SourceType.user none
      (fun _ _ => NetEvent.complete 100 100) false false none
    r.fetchInvocations = 1 ∧ r.semAcquires = 2 ∧ r.semReleases = 2 := by decide

/-- Claim C5 (amended): when a status message exists and the origin is
not a channel, a file whose size exceeds the 2 GB ceiling is rejected
before any fetch: exactly one rejection message is emitted, no
`download_file` invocation and no underlying attempt happens, the
semaphore is never touched, and the temp file state is left unchanged. -/
theorem C5_size_ceiling (link : LinkInfo) (st : SourceType)
    (refresh : Option (List LinkInfo)) (env : Nat → Nat → NetEvent)
    (chanFlag sendExc : Bool) (fs0 : Option Nat)
    (hch : st.isChannel = false) (hsz : (2 : ℚ) < link.size_mb / 1024) :
    (processFile link true st refresh env chanFlag sendExc fs0).messages = [Msg.sizeReject]
    ∧ (processFile link true st refresh env chanFlag sendExc fs0).fetchInvocations = 0
    ∧ (processFile link true st refresh env chanFlag sendExc fs0).underlyingAttempts = 0
    ∧ (processFile link true st refresh env chanFlag sendExc fs0).semAcquires = 0
    ∧ (processFile link true st refresh env chanFlag sendExc fs0).finalFs = fs0 := by
  have hgate : (2048 : ℚ) < link.size_mb := (size_gate_iff link.size_mb).mpr hsz
  have hcond : (true && !st.isChannel) = true ∧ (2048 : ℚ) < link.size_mb := by
    simp [hch, hgate]
  unfold processFile
  dsimp only
  rw [if_pos hcond]
  exact ⟨rfl, rfl, rfl, rfl, rfl⟩

/-- Claim C5 witness at a concrete oversized file from a direct user. -/
theorem C5_size_ceiling_witness :
    let r := processFile ⟨"big.mp4", 3000, some "u", none⟩ true SourceType.user none
      (fun _ _ => NetEvent.genericErr) false false none
    r.messages = [Msg.sizeReject] ∧ r.fetchInvocations = 0 ∧ r.underlyingAttempts = 0
    ∧ r.semAcquires = 0 ∧ r.finalFs = none :=
  C5_size_ceiling ⟨"big.mp4", 3000, some "u", none⟩ SourceType.user none
    (fun _ _ => NetEvent.genericErr) false false none rfl (by norm_num)

/-- Claim C5 counterexample: the validation block is gated on
`status_message and source_type != "channel"` (line 299), so an
oversized file from a channel source is not rejected: no rejection
message is emitted and the escalation runs, performing fetches. -/
theorem C5_channel_not_validated_cex :
    let r := processFile ⟨"big.mp4", 3000, some "u", none⟩ true SourceType.channel none
      (fun _ _ => NetEvent.genericErr) true false none
    r.messages.count Msg.sizeReject = 0 ∧ r.fetchInvocations = 2
    ∧ r.underlyingAttempts = 6 := by decide

/-- Claim C8 (confirmed): starting from a clean temp state, no temporary
artifact survives one descriptor processing run, on every exit path:
validation rejection, download failure with or without re-resolution,
success with delivery, and an unexpected exception in the send and
broadcast phase (the `finally` at line 390 always unlinks the artifact,
and `download_file` deletes its temp file on its own failure paths). -/
theorem C8_artifact_cleanup (link : LinkInfo) (hasStatus : Bool) (st : SourceType)
    (refresh : Option (List LinkInfo)) (env : Nat → Nat → NetEvent)
    (chanFlag sendExc : Bool) :
    (processFile link hasStatus st refresh env chanFlag sendExc none).finalFs = none := by
  unfold processFile
  dsimp only
  split
  · rfl
  · split
    · rfl
    · split
      · rfl
      · next h =>
          rw [Bool.not_eq_true] at h
          have hs : (escalate link refresh env none).success = false := by
            rw [← escalate_filePath link refresh env none]
            exact h
          exact escalate_fail_fs link refresh env none hs

/-- Concrete network environment for the C6 witness: two payload
truncations, then a completed stream that passes the validation. -/
def retryEnvW : Nat → NetEvent :=
  fun a => match a with
  | 0 => NetEvent.truncate 100 30
  | 1 => NetEvent.truncate 100 30
  | _ => NetEvent.complete 40 40

/-- Claim C6 (confirmed): a transient payload/content-length failure is
retried up to 3 total attempts; the sleep before retrying attempt `k+1`
is `2 ^ k` seconds (exponential backoff with base 2); failure is
reported only once all 3 attempts have failed; and a source that fails
twice and then completes acceptably on the third request yields success
after exactly 3 underlying attempts, with sleeps of 1 and 2 seconds. -/
theorem C6_retry_policy (u fn : String) (env env2 : Nat → NetEvent) (fs2 : Option Nat)
    (cl0 d0 cl1 d1 cl2 d2 : Nat)
    (h0 : env 0 = NetEvent.truncate cl0 d0) (h1 : env 1 = NetEvent.truncate cl1 d1)
    (h2 : env 2 = NetEvent.complete cl2 d2)
    (hacc : cl2 + (d0 + d1) = 0 ∨ 9 * (cl2 + (d0 + d1)) ≤ 10 * (d0 + d1 + d2)) :
    ((downloadFile (some u) fn env none).success = true
      ∧ (downloadFile (some u) fn env none).attempts.length = 3
      ∧ (downloadFile (some u) fn env none).sleeps = [1, 2])
    ∧ (downloadFile (some u) fn env2 fs2).attempts.length ≤ 3
    ∧ ((downloadFile (some u) fn env2 fs2).success = false →
        (downloadFile (some u) fn env2 fs2).attempts.length = 3)
    ∧ (downloadFile (some u) fn env2 fs2).sleeps =
        (List.range ((downloadFile (some u) fn env2 fs2).attempts.length - 1)).map
          (fun k => 2 ^ k) := by
  refine ⟨?_, dl_len_le _ _ _ _, dl_fail_len _ _ _ _, dl_sleeps _ _ _ _⟩
  have e0 : attemptStep ((none : Option Nat).getD 0) (eventAt (some u) env 0) =
      FetchStep.fail (some d0) := by
    simp [eventAt, h0, attemptStep]
  have e1 : attemptStep ((some d0).getD 0) (eventAt (some u) env (0 + 1)) =
      FetchStep.fail (some (d0 + d1)) := by
    simp [eventAt, h1, attemptStep]
  have e2 : attemptStep ((some (d0 + d1)).getD 0) (eventAt (some u) env (0 + 1 + 1)) =
      FetchStep.accept (d0 + d1 + d2) (cl2 + (d0 + d1)) := by
    simp only [eventAt, attemptStep, Option.getD]
    norm_num [h2]
    intro hA hB
    exfalso
    rcases hacc with hz | hb <;> omega
  have step1 := dl_step_fail (some u) fn env 0 (max_retries - 1) 1 none (some d0)
    (by norm_num [max_retries]) e0
  have step2 := dl_step_fail (some u) fn env (0 + 1) 1 0 (some d0) (some (d0 + d1)) rfl e1
  have step3 := dl_step_accept (some u) fn env (0 + 1 + 1) 0 (some (d0 + d1))
    (d0 + d1 + d2) (cl2 + (d0 + d1)) e2
  have hres : downloadFile (some u) fn env none =
      { success := true, retPath := some (tempPath fn), fileSize := some (d0 + d1 + d2),
        acceptedTotal := some (cl2 + (d0 + d1)), targetPath := tempPath fn,
        attempts := [mkAttemptRec (some u) none, mkAttemptRec (some u) (some d0),
          mkAttemptRec (some u) (some (d0 + d1))],
        sleeps := [2 ^ 0, 2 ^ (0 + 1)], semAcquires := 3, semReleases := 3 } := by
    unfold downloadFile
    rw [step1, step2, step3]
  rw [hres]
  norm_num

/-- Claim C6 witness: a source that truncates twice and then completes
acceptably, run both as the scenario environment and as the generic
environment of the bound and backoff facts. -/
theorem C6_retry_policy_witness :
    ((downloadFile (some "u") "f.mp4" retryEnvW none).success = true
      ∧ (downloadFile (some "u") "f.mp4" retryEnvW none).attempts.length = 3
      ∧ (downloadFile (some "u") "f.mp4" retryEnvW none).sleeps = [1, 2])
    ∧ (downloadFile (some "u") "f.mp4" retryEnvW none).attempts.length ≤ 3
    ∧ ((downloadFile (some "u") "f.mp4" retryEnvW none).success = false →
        (downloadFile (some "u") "f.mp4" retryEnvW none).attempts.length = 3)
    ∧ (downloadFile (some "u") "f.mp4" retryEnvW none).sleeps =
        (List.range ((downloadFile (some "u") "f.mp4" retryEnvW none).attempts.length - 1)).map
          (fun k => 2 ^ k) :=
  C6_retry_policy "u" "f.mp4" retryEnvW retryEnvW none 100 30 100 30 40 40
    rfl rfl rfl (by decide)

/-- Claim C7 (amended): a successful `download_file` invocation returns
the target path and a file whose final size passed the validation
against the origin-declared total (`total = 0` when no Content-Length was
declared, otherwise at least 90 percent of it); a failed invocation
deletes the temp file and returns no path.  A mismatch on a non-final
attempt fails that attempt but keeps the partial file for resumption
(see the counterexample). -/
theorem C7_size_validation (u : Option String) (fn : String) (env : Nat → NetEvent)
    (fs : Option Nat) :
    ((downloadFile u fn env fs).success = true →
      ∃ n t, (downloadFile u fn env fs).fileSize = some n ∧
        (downloadFile u fn env fs).retPath = some (tempPath fn) ∧
        (downloadFile u fn env fs).acceptedTotal = some t ∧
        (t = 0 ∨ 9 * t ≤ 10 * n))
    ∧ ((downloadFile u fn env fs).success = false →
        (downloadFile u fn env fs).fileSize = none ∧
          (downloadFile u fn env fs).retPath = none) :=
  ⟨fun h => dl_success_state u fn env fs h, fun h => dl_fail_state u fn env fs h⟩

/-- Claim C7 counterexample: attempt 0 completes with 50 of 100 declared
bytes (below the 90 percent tolerance), yet the file is not deleted: the
next attempt resumes from the 50 retained bytes and the invocation
ultimately returns the file. -/
theorem C7_mismatch_file_retained_cex :
    let r := downloadFile (some "u") "f.mp4"
      (fun a => match a with
        | 0 => NetEvent.complete 100 50
        | _ => NetEvent.complete 50 50) none
    r.success = true ∧ r.attempts.map (fun a => a.existing) = [none, some 50]
      ∧ r.fileSize = some 100 ∧ r.retPath = some (tempPath "f.mp4")
      ∧ r.sleeps = [1] := by decide

/-- Claim C9 (confirmed): an attempt that starts with an existing partial
file of `n` bytes sends a Range header starting at `n` and opens the file
in append mode (for nonzero `n`); all attempts of one invocation use the
same candidate URL; and within one escalation run from a clean state
every stage starts with no partial file, so a resume only ever picks up
progress of an earlier attempt on the same candidate URL. -/
theorem C9_resume_same_url (u fn : String) (env : Nat → NetEvent) (n : Nat)
    (link : LinkInfo) (refresh : Option (List LinkInfo)) (env2 : Nat → Nat → NetEvent) :
    ((downloadFile (some u) fn env (some n)).attempts.head?).map
        (fun a => (a.hasRange, a.rangeStart, a.appendMode)) = some (true, n, n != 0)
    ∧ ((downloadFile (some u) fn env (some n)).attempts.all (fun a => a.url == some u)) = true
    ∧ ((escalate link refresh env2 none).stages.all (fun s => (s.result.attempts.head?).all
        (fun arec => arec.existing == none))) = true := by
  refine ⟨?_, dl_urls (some u) fn env (some n), escalate_clean_start link refresh env2⟩
  rw [dl_head]
  simp [mkAttemptRec]

/-- Claim C10 (confirmed): the local target path of `download_file` is
the system temp directory joined with the filename, so it is identical
for any two invocations with the same filename, whatever their URLs,
environments or prior file states; and an invocation that starts with a
leftover file of `n` bytes reads it, resumes from byte `n` and appends
to it (overwriting from the start when `n = 0`). -/
theorem C10_target_path (u1 u2 : Option String) (fn : String) (env1 env2 : Nat → NetEvent)
    (fs1 fs2 : Option Nat) (n : Nat) :
    (downloadFile u1 fn env1 fs1).targetPath = (downloadFile u2 fn env2 fs2).targetPath
    ∧ (downloadFile u1 fn env1 fs1).targetPath = tempPath fn
    ∧ ((downloadFile u1 fn env1 (some n)).attempts.head?).map
        (fun a => (a.existing, a.rangeStart, a.appendMode)) = some (some n, n, n != 0) := by
  refine ⟨?_, dl_target u1 fn env1 fs1, ?_⟩
  · rw [dl_target, dl_target]
  · rw [dl_head]
    simp [mkAttemptRec]

/-- Claim C3 (amended): when the first `broadcast_video` call with a
given artifact name succeeds for at least one destination, a second call
with the same name performs zero sends, counts zero successes, changes
no ledger state and returns false - regardless of the destination set،
flags or send outcomes of the second call, because only a successful
send writes the ledger entry keyed by the name. -/
theorem C3_ledger_dedup (cfg1 cfg2 : BotConfig) (name : String) (t1 t2 : BroadcastType)
    (ok1 ok2 : Int → Bool) (led0 : List LedgerEntry)
    (h : 1 ≤ (broadcastVideo cfg1 name t1 ok1 led0).successCount) :
    let r1 := broadcastVideo cfg1 name t1 ok1 led0
    let r2 := broadcastVideo cfg2 name t2 ok2 r1.ledger
    r2.sendsAttempted = [] ∧ r2.successCount = 0 ∧ r2.ledger = r1.ledger ∧ r2.ret = false := by
  have hl := broadcast_ledger_after cfg1 name t1 ok1 led0 h
  intro r1 r2
  show r2.sendsAttempted = [] ∧ r2.successCount = 0 ∧ r2.ledger = r1.ledger ∧ r2.ret = false
  have hskip := broadcast_skip_when_present cfg2 name t2 ok2
    (broadcastVideo cfg1 name t1 ok1 led0).ledger hl
  rw [show r2 = broadcastVideo cfg2 name t2 ok2 r1.ledger from rfl, hskip]
  exact ⟨rfl, rfl, rfl, rfl⟩

/-- Claim C3 witness: first call broadcasts name v.mp4 to chat 5 with the
admin flag, the second call runs with a different destination set and
type and performs zero sends. -/
theorem C3_ledger_dedup_witness :
    let r1 := broadcastVideo ⟨true, true, [5]⟩ "v.mp4" BroadcastType.admin (fun _ => true) []
    let r2 := broadcastVideo ⟨true, true, [9]⟩ "v.mp4" BroadcastType.channel (fun _ => true) r1.ledger
    r2.sendsAttempted = [] ∧ r2.successCount = 0 ∧ r2.ledger = r1.ledger ∧ r2.ret = false :=
  C3_ledger_dedup ⟨true, true, [5]⟩ ⟨true, true, [9]⟩ "v.mp4" BroadcastType.admin
    BroadcastType.channel (fun _ => true) (fun _ => true) [] (by decide)

/-- Claim C3 counterexample: when the first call performs no successful
send (here: an empty destination set), no ledger entry is written, so a
second call with the same artifact name does send - the dedup is not
keyed on the name alone but on a previously successful send. -/
theorem C3_dedup_without_success_cex :
    let r1 := broadcastVideo ⟨true, true, []⟩ "v.mp4" BroadcastType.admin (fun _ => true) []
    let r2 := broadcastVideo ⟨true, true, [7]⟩ "v.mp4" BroadcastType.admin (fun _ => true) r1.ledger
    r1.sendsAttempted = [] ∧ r2.sendsAttempted = [7] ∧ r2.successCount = 1 := by decide

/-- Claim C4 (amended): when `broadcast_video` proceeds (flag enabled for
its type, name not in the ledger, nonempty destination set) it attempts a
send to every destination in order - a per-destination failure does not
abort the remaining ones - inserts a ledger entry exactly for each
destination whose send succeeded, and returns the boolean
`broadcast_count > 0`, not the count itself. -/
theorem C4_broadcast_proceed (cfg : BotConfig) (name : String) (btype : BroadcastType)
    (ok : Int → Bool) (led : List LedgerEntry)
    (hadmin : btype = BroadcastType.admin → cfg.admin_broadcast_enabled = true)
    (hchan : btype = BroadcastType.channel → cfg.channel_broadcast_enabled = true)
    (hdedup : ledgerHas led name = false) (hchats : cfg.broadcast_chats ≠ []) :
    (broadcastVideo cfg name btype ok led).sendsAttempted = cfg.broadcast_chats
    ∧ (broadcastVideo cfg name btype ok led).successCount =
        (cfg.broadcast_chats.filter ok).length
    ∧ (broadcastVideo cfg name btype ok led).ledger =
        led ++ (cfg.broadcast_chats.filter ok).map (fun c => ⟨name, c⟩)
    ∧ (broadcastVideo cfg name btype ok led).ret =
        decide (0 < (cfg.broadcast_chats.filter ok).length) := by
  have h1 : ¬(btype = BroadcastType.admin ∧ cfg.admin_broadcast_enabled = false) := by
    rintro ⟨hb, he⟩
    rw [hadmin hb] at he
    cases he
  have h2 : ¬(btype = BroadcastType.channel ∧ cfg.channel_broadcast_enabled = false) := by
    rintro ⟨hb, he⟩
    rw [hchan hb] at he
    cases he
  simp only [broadcastVideo, h1, h2, hdedup, hchats, if_false, broadcastLoop_spec]
  simp

/-- Claim C4 witness: two destinations, the send to chat 1 fails and the
send to chat 2 succeeds; both are attempted, one ledger entry is
written, and the call returns true. -/
theorem C4_broadcast_proceed_witness :
    (broadcastVideo ⟨true, false, [1, 2]⟩ "w.mp4" BroadcastType.admin
        (fun c => decide (c = 2)) []).sendsAttempted = [1, 2]
    ∧ (broadcastVideo ⟨true, false, [1, 2]⟩ "w.mp4" BroadcastType.admin
        (fun c => decide (c = 2)) []).successCount =
          (([1, 2] : List Int).filter (fun c => decide (c = 2))).length
    ∧ (broadcastVideo ⟨true, false, [1, 2]⟩ "w.mp4" BroadcastType.admin
        (fun c => decide (c = 2)) []).ledger =
          [] ++ (([1, 2] : List Int).filter (fun c => decide (c = 2))).map
            (fun c => ⟨"w.mp4", c⟩)
    ∧ (broadcastVideo ⟨true, false, [1, 2]⟩ "w.mp4" BroadcastType.admin
        (fun c => decide (c = 2)) []).ret =
          decide (0 < (([1, 2] : List Int).filter (fun c => decide (c = 2))).length) :=
  C4_broadcast_proceed ⟨true, false, [1, 2]⟩ "w.mp4" BroadcastType.admin
    (fun c => decide (c = 2)) [] (fun _ => rfl) (by intro h; cases h) (by decide) (by decide)

/-- Claim C4 counterexample: the operation returns a boolean, not the
count of succeeded destinations: a run with 2 successes and a run with 1
success both return `true` (and in python, `True == 1`, not 2). -/
theorem C4_returns_bool_cex :
    let rA := broadcastVideo ⟨true, false, [1, 2]⟩ "v.mp4" BroadcastType.admin (fun _ => true) []
    let rB := broadcastVideo ⟨true, false, [1]⟩ "v.mp4" BroadcastType.admin (fun _ => true) []
    rA.successCount = 2 ∧ rB.successCount = 1 ∧ rA.ret = true ∧ rB.ret = true := by decide

end TeraboxBot
